import Mathlib

/-!
Verification of the filter-to-SQL translator and helper utilities of the
transfermarkt-datasets Streamlit app.

The definitions below are a shallow embedding of the Python source:
* `src/streamlit/pages/07_interactive_data_export.py`
  (`load_data_with_duckdb`, the date-swap snippet, the club/league
  resolution helpers, and the Excel-export size gate), and
* `src/streamlit/utils.py` (`truncate_output`).

Modelling conventions:
* A Python `dict` used as an association table becomes a `List (key × value)`
  with first-match lookup (`pyDictGet`).
* A CSV row, for the purpose of evaluating the generated WHERE clause,
  is an association list from column name to an integer value; for date
  columns the integer is the day ordinal of the date (SQL comparisons on
  `CAST(col AS DATE)` against `'%Y-%m-%d'` literals coincide with the
  ordinal order), for id columns it is the club id.  A column absent from
  the row models SQL NULL: comparisons on it select nothing.
* The SQL text built by string interpolation is represented by the small
  AST `SqlPred` / `SelectQuery`, which mirrors the exact shape of the
  interpolated strings (one `CAST .. >= .. AND CAST .. <= ..` date clause,
  `"col" IN (ids)` clauses, and the `(c1 IN .. OR c2 IN ..)` join).
* Python truthiness of the values reaching the builder is modelled
  explicitly: `None`/absent keys are `Option.none`, and empty strings,
  empty lists/tuples and empty dicts are falsy.
-/

/-- First-match lookup in an association list; embeds Python `dict[key]` /
`key in dict` for dicts represented as association lists. -/
def pyDictGet {α β : Type} [DecidableEq α] (m : List (α × β)) (key : α) : Option β :=
  match m with
  | [] => none
  | (k, v) :: rest => if k = key then some v else pyDictGet rest key

/-- A CSV row, as seen by the generated WHERE clause: column name ↦ value. -/
abbrev Row := List (String × Int)

/-- Value of a column in a row (`none` models SQL NULL / missing column). -/
def rowVal (r : Row) (col : String) : Option Int :=
  pyDictGet r col

/-- AST of the predicates `load_data_with_duckdb` interpolates into the SQL
text:
* `dateBetween c s e` is `CAST("c" AS DATE) >= 's' AND CAST("c" AS DATE) <= 'e'`;
* `inList c ids` is `"c" IN (ids)`;
* `orIn cols ids` is `(` ++ the `" OR "`-join of `"c" IN (ids)` for `c` in
  `cols` ++ `)` (source line 627). -/
inductive SqlPred where
  | dateBetween (col : String) (startD endD : Int)
  | inList (col : String) (ids : List Int)
  | orIn (cols : List String) (ids : List Int)
deriving DecidableEq

/-- Evaluation of one generated predicate on a row, following DuckDB
semantics (a NULL column satisfies no comparison). -/
def evalPred (r : Row) : SqlPred → Bool
  | .dateBetween col s e =>
      match rowVal r col with
      | some v => decide (s ≤ v) && decide (v ≤ e)
      | none => false
  | .inList col ids =>
      match rowVal r col with
      | some v => ids.contains v
      | none => false
  | .orIn cols ids =>
      cols.any fun col =>
        match rowVal r col with
        | some v => ids.contains v
        | none => false

/-- Membership mode of a club filter (`team_filterable_assets[...]["type"]`). -/
inductive MembershipType where
  | single
  | any
deriving DecidableEq

/-- One entry of `team_filterable_assets`: the club-id columns and the
membership mode. -/
structure ClubFilterConfig where
  cols : List String
  mtype : MembershipType
deriving DecidableEq

/-- One element of the Python `date_range` value: either a `datetime.date`
(embedded as its day ordinal) or a value of any other type. -/
inductive PyDateVal where
  | date (d : Int)
  | notDate
deriving DecidableEq

/-- The Python value found under `filters["date_range"]`: a tuple/list of
elements, or a truthy value of a non-sequence type (for which
`isinstance(date_range, (tuple, list))` is false). -/
inductive PyDateRange where
  | seq (elems : List PyDateVal)
  | nonseq
deriving DecidableEq

/-- Python truthiness of the `date_range` value: `None`/absent and the
empty tuple/list are falsy. -/
def truthyRange : Option PyDateRange → Bool
  | none => false
  | some (.seq elems) => !elems.isEmpty
  | some .nonseq => true

/-- The `filters` dict passed to `load_data_with_duckdb`; `none` models an
absent key (so `filters.get(...)` returns `None`). -/
structure Filters where
  date_filter_col : Option String
  date_range : Option PyDateRange
  club_filter_config : Option ClubFilterConfig
  selected_clubs : Option (List String)
  club_name_map : Option (List (String × Int))
deriving DecidableEq

/-- Lines 596-608: the date-condition block of `load_data_with_duckdb`.
Returns the date conditions to append, or the error message of one of the
two early `return`s (which return an empty dataframe, query text `""` and
`row_count` 0).  The guard `filters.get("date_filter_col") and
filters.get("date_range")` skips the whole block when either value is
falsy, hence the `.ok []` results for an absent/empty column or range. -/
def buildDateConditions (f : Filters) : Except String (List SqlPred) :=
  match f.date_filter_col, f.date_range with
  | some col, some dr =>
      if col.isEmpty then .ok []
      else
        match dr with
        | .seq [] => .ok []
        | .seq [PyDateVal.date s, PyDateVal.date e] =>
            .ok [SqlPred.dateBetween col s e]
        | .seq [_, _] => .error "Invalid date types"
        | .seq _ => .error "Invalid date range format"
        | .nonseq => .error "Invalid date range format"
  | _, _ => .ok []

/-- Line 615: `[club_name_map[name] for name in selected_clubs if name in
club_name_map]` — names absent from the mapping are dropped. -/
def resolveClubIds (club_name_map : List (String × Int))
    (selected_clubs : List String) : List Int :=
  selected_clubs.filterMap fun name => pyDictGet club_name_map name

/-- Lines 611-627: the club-condition block of `load_data_with_duckdb`.
The guard requires all three of `club_filter_config`, `selected_clubs` and
`club_name_map` to be truthy; then the resolved id list must be non-empty;
then one condition is appended: `club_conditions_list[0]` for mode
`"single"`, the `" OR "`-join of the per-column `IN` clauses for `"any"`. -/
def buildClubConditions (f : Filters) : List SqlPred :=
  match f.club_filter_config, f.selected_clubs, f.club_name_map with
  | some cfg, some sel, some nmap =>
      if sel.isEmpty || nmap.isEmpty then []
      else
        let selected_club_ids := resolveClubIds nmap sel
        if selected_club_ids.isEmpty then []
        else
          let club_conditions_list :=
            cfg.cols.map fun col => SqlPred.inList col selected_club_ids
          match club_conditions_list with
          | [] => []
          | first :: _ =>
              match cfg.mtype with
              | .single => [first]
              | .any => [SqlPred.orIn cfg.cols selected_club_ids]
  | _, _, _ => []

/-- The three datasets treated as large at lines 645-648. -/
def largeAssets : List String :=
  ["cur_transfers", "cur_appearances", "cur_player_valuations"]

/-- Lines 644-648: the per-asset `MAX_QUERY_ROWS` ceiling used for the
`LIMIT`. -/
def maxQueryRows (assetName : String) : Nat :=
  if largeAssets.contains assetName then 100000 else 200000

/-- Lines 582-589: the per-asset `DATASET_LIMITS` / `MAX_ROWS` value.  In
the source it is only interpolated into an informational `st.info` message
and does not affect the returned result. -/
def datasetLimits (assetName : String) : Nat :=
  if assetName = "cur_transfers" then 25000
  else if assetName = "cur_player_valuations" then 25000
  else if assetName = "cur_appearances" then 30000
  else 50000

/-- A row satisfies the WHERE clause iff it satisfies the `" AND "`-join of
all conditions. -/
def matchesConds (conds : List SqlPred) (r : Row) : Bool :=
  conds.all fun c => evalPred r c

/-- The `SELECT COUNT(*)` over the filtered source (line 634/641). -/
def countMatching (table : List Row) (conds : List SqlPred) : Nat :=
  (table.filter (matchesConds conds)).length

/-- The final SELECT text: its WHERE conditions and optional LIMIT. -/
structure SelectQuery where
  conds : List SqlPred
  lim : Option Nat
deriving DecidableEq

/-- Executing the final query: filter, then apply the LIMIT if present. -/
def runSelect (table : List Row) (q : SelectQuery) : List Row :=
  let matched := table.filter (matchesConds q.conds)
  match q.lim with
  | none => matched
  | some n => matched.take n

/-- Python `needle in haystack` for strings (needle non-empty). -/
def strContains (haystack needle : String) : Bool :=
  (haystack.splitOn needle).length > 1

/-- Line 669: classification of a generic engine exception's message. -/
def mentionsMemory (msg : String) : Bool :=
  strContains msg.toLower "memory" || strContains msg.toLower "out of memory"

/-- Where, if anywhere, the engine raises inside the `try` block: at the
count query (before the LIMIT decision) or at the main query. -/
inductive EngineFailure where
  | memoryErrorAtCount
  | memoryErrorAtMain
  | excAtCount (msg : String)
  | excAtMain (msg : String)
deriving DecidableEq

/-- Everything one call to `load_data_with_duckdb` observes: the asset's
name and prepared file path, whether the file exists, the file's rows, the
`filters` dict, and the engine's failure behaviour on this call. -/
structure DuckInput where
  assetName : String
  filePath : String
  fileExists : Bool
  table : List Row
  filters : Filters
  engineFailure : Option EngineFailure
deriving DecidableEq

/-- The result dict of `load_data_with_duckdb`.  `queryText = none` models
the empty query string `""` of the early returns.  The early returns carry
a `row_count` key, the later ones a `total_rows_available` key; a `none`
field models the key being absent from the dict. -/
structure DuckResult where
  data : List Row
  queryText : Option SelectQuery
  error : Option String
  total_rows_available : Option Nat
  row_count : Option Nat
deriving DecidableEq

/-- The `MemoryError` branch's message (line 662). -/
def memoryErrorMsg : String :=
  "Memory error: Dataset too large for available memory. Try applying more filters to reduce data size."

/-- The generic-exception branch's message (lines 669-672). -/
def classifyExcMsg (msg : String) : String :=
  if mentionsMemory msg then
    "Memory constraint: " ++ msg ++ ". Try applying filters to reduce dataset size."
  else
    "Query failed: " ++ msg

/-- Lines 566-675: `load_data_with_duckdb`.  Mirrors the source top to
bottom: missing file → early error return; malformed date range → early
error return with empty query text; otherwise build the conditions, run
the count query, decide the LIMIT against `MAX_QUERY_ROWS`, run the final
query; `MemoryError` and generic exceptions are caught and returned as
error results with the query text built so far. -/
def load_data_with_duckdb (inp : DuckInput) : DuckResult :=
  if !inp.fileExists then
    { data := [], queryText := none,
      error := some ("Data file not found: " ++ inp.filePath),
      total_rows_available := none, row_count := some 0 }
  else
    match buildDateConditions inp.filters with
    | .error msg =>
        { data := [], queryText := none, error := some msg,
          total_rows_available := none, row_count := some 0 }
    | .ok dateConds =>
        let conds := dateConds ++ buildClubConditions inp.filters
        let baseQuery : SelectQuery := { conds := conds, lim := none }
        match inp.engineFailure with
        | some .memoryErrorAtCount =>
            { data := [], queryText := some baseQuery,
              error := some memoryErrorMsg,
              total_rows_available := some 0, row_count := none }
        | some (.excAtCount msg) =>
            { data := [], queryText := some baseQuery,
              error := some (classifyExcMsg msg),
              total_rows_available := some 0, row_count := none }
        | other =>
            let rowCount := countMatching inp.table conds
            let lim : Option Nat :=
              if rowCount > maxQueryRows inp.assetName then
                some (maxQueryRows inp.assetName)
              else none
            let finalQuery : SelectQuery := { conds := conds, lim := lim }
            match other with
            | some .memoryErrorAtMain =>
                { data := [], queryText := some finalQuery,
                  error := some memoryErrorMsg,
                  total_rows_available := some 0, row_count := none }
            | some (.excAtMain msg) =>
                { data := [], queryText := some finalQuery,
                  error := some (classifyExcMsg msg),
                  total_rows_available := some 0, row_count := none }
            | _ =>
                { data := runSelect inp.table finalQuery,
                  queryText := some finalQuery, error := none,
                  total_rows_available := some rowCount, row_count := none }

/-- Lines 411-415: the UI swaps the two date inputs when the start is after
the end, before building `selected_date_range_ui`. -/
def orderDateRange (startInput endInput : Int) : Int × Int :=
  if startInput > endInput then (endInput, startInput)
  else (startInput, endInput)

/-- The three session-state keys the export flow writes
(`data_prepared_for_download`, `excel_bytes_for_download`,
`excel_filename_for_download`); the bytes are modelled as a list. -/
structure ExportSessionState where
  data_prepared_for_download : Bool
  excel_bytes_for_download : Option (List Nat)
  excel_filename_for_download : String
deriving DecidableEq

/-- Lines 694-696: the session fields are reset before preparation. -/
def resetExportSession : ExportSessionState :=
  { data_prepared_for_download := false,
    excel_bytes_for_download := none,
    excel_filename_for_download := "" }

/-- Line 798: the maximum Excel file size in MB. -/
def MAX_FILE_SIZE_MB : Nat := 100

/-- Line 797/800: `excel_size_mb = len(excel_bytes) / (1024 * 1024)` and
`excel_size_mb > MAX_FILE_SIZE_MB`.  Division by `1024 * 1024` is exact
scaling, so the float comparison coincides with this Nat comparison. -/
def excelFileSizeExceeds (excelBytes : List Nat) : Bool :=
  excelBytes.length > MAX_FILE_SIZE_MB * 1024 * 1024

/-- The error text of line 803 (the interpolated sizes elided). -/
def oversizeErrorMsg : String :=
  "Generated file is too large. Maximum allowed: 100 MB. Please apply more filters to reduce data size."

/-- Lines 796-818: after `excel_bytes` has been generated (from the reset
session state of lines 694-696), either discard it with an error if it is
too large, or store it in the session with the timestamped filename of
line 811.  Returns the resulting session state and the error message, if
any. -/
def storeExcelForDownload (assetName timestamp : String)
    (excelBytes : List Nat) : ExportSessionState × Option String :=
  if excelFileSizeExceeds excelBytes then
    (resetExportSession, some oversizeErrorMsg)
  else
    ({ data_prepared_for_download := true,
       excel_bytes_for_download := some excelBytes,
       excel_filename_for_download :=
         "transfermarkt_" ++ assetName ++ "_" ++ timestamp ++ ".xlsx" },
     none)

/-- Line 832: the download button is rendered only when
`st.session_state.data_prepared_for_download` and
`st.session_state.excel_bytes_for_download` are both truthy (empty bytes
are falsy in Python). -/
def downloadOffered (s : ExportSessionState) : Bool :=
  s.data_prepared_for_download &&
    (match s.excel_bytes_for_download with
     | some bs => !bs.isEmpty
     | none => false)

/-- Python `set(...)` materialised as first-occurrence deduplication (the
subsequent sort makes the iteration order irrelevant). -/
def pySetDedup {α : Type} [DecidableEq α] : List α → List α
  | [] => []
  | a :: rest => a :: pySetDedup (rest.filter fun x => x ≠ a)
termination_by l => l.length
decreasing_by
  simp only [List.length_cons]
  exact Nat.lt_succ_of_le (List.length_filter_le _ _)

/-- Insertion step of `sorted(...)` over strings. -/
def pyInsertSorted (s : String) : List String → List String
  | [] => [s]
  | t :: rest => if s ≤ t then s :: t :: rest else t :: pyInsertSorted s rest

/-- Python `sorted(...)` over strings (lexicographic order). -/
def pySortStrings : List String → List String
  | [] => []
  | s :: rest => pyInsertSorted s (pySortStrings rest)

/-- Lines 213-221 of `get_club_names_for_leagues`: walk the distinct club
ids returned by the league query, keep the names of the ids present in the
id→name map (ids with no entry are skipped), then
`sorted(list(set(club_names_found)))`. -/
def clubNamesFromIds (unique_club_ids : List Int)
    (idToName : List (Int × String)) : List String :=
  pySortStrings
    (pySetDedup (unique_club_ids.filterMap fun cid => pyDictGet idToName cid))

/-- `utils.py` line 25: the marker appended when there are too many lines. -/
def tooManyLinesMarker (total : Nat) : String :=
  "... (truncated - too many lines, total " ++ Nat.repr total ++ ")"

/-- `utils.py` line 28: the marker appended to an over-long line. -/
def lineTooLongMarker (origLen : Nat) : String :=
  "... (truncated - line too long, original length " ++ Nat.repr origLen ++ ")"

/-- `utils.py` lines 27-30: keep a line whose length is within the bound,
otherwise cut it to its first `maxLineLen` characters and append the
marker. -/
def truncateLine (maxLineLen : Nat) (line : String) : String :=
  if line.length > maxLineLen then
    String.mk (line.data.take maxLineLen) ++ lineTooLongMarker line.length
  else line

/-- Splitting worker for `str.splitlines`: accumulate the current line
(reversed) and emit it at each line boundary; a terminator at the end of
the string produces no trailing empty line.  The standard boundaries
`\n`, `\r\n` and `\r` are covered (the rarer Unicode boundaries Python
also recognises are omitted; they do not occur in this code's inputs). -/
def pySplitlinesAux : List Char → List Char → List String
  | [], acc => [String.mk acc.reverse]
  | '\r' :: '\n' :: rest, acc =>
      String.mk acc.reverse ::
        (if rest.isEmpty then [] else pySplitlinesAux rest [])
  | '\n' :: rest, acc =>
      String.mk acc.reverse ::
        (if rest.isEmpty then [] else pySplitlinesAux rest [])
  | '\r' :: rest, acc =>
      String.mk acc.reverse ::
        (if rest.isEmpty then [] else pySplitlinesAux rest [])
  | c :: rest, acc => pySplitlinesAux rest (c :: acc)

/-- Python `str.splitlines`: the empty string yields no lines. -/
def pySplitlines (s : String) : List String :=
  if s.isEmpty then [] else pySplitlinesAux s.data []

/-- `utils.py` lines 23-30: the loop body of `truncate_output`.  The
second argument is the remaining budget `max_lines - i`; entering an
iteration with exhausted budget appends the too-many-lines marker and
breaks. -/
def truncateLoop (total maxLineLen : Nat) :
    List String → Nat → List String
  | [], _ => []
  | _ :: _, 0 => [tooManyLinesMarker total]
  | line :: rest, budget + 1 =>
      truncateLine maxLineLen line :: truncateLoop total maxLineLen rest budget

/-- `utils.py` lines 18-31: `truncate_output`.  An empty (falsy) input
returns `""`; otherwise the processed lines are joined with the literal
two-character separator `\n` (a backslash followed by `n` — the source
writes `"\\n".join(...)`, not a newline). -/
def truncate_output (output : String) (maxLines maxLineLen : Nat) : String :=
  if output.isEmpty then ""
  else
    String.intercalate "\\n"
      (truncateLoop (pySplitlines output).length maxLineLen
        (pySplitlines output) maxLines)

/-- Whether a generated predicate is the date-range predicate
(`CAST(col AS DATE) >= start AND CAST(col AS DATE) <= end`). -/
def isDateRangePred : SqlPred → Bool
  | .dateBetween _ _ _ => true
  | _ => false

/-- Case analysis over `load_data_with_duckdb`: every branch either reports
no error or returns the empty dataframe. -/
theorem load_error_or_empty (inp : DuckInput) :
    (load_data_with_duckdb inp).error = none ∨
    (load_data_with_duckdb inp).data = [] := by
  unfold load_data_with_duckdb
  split
  · exact Or.inr rfl
  · split
    · exact Or.inr rfl
    · split
      · exact Or.inr rfl
      · exact Or.inr rfl
      · split
        · exact Or.inr rfl
        · exact Or.inr rfl
        · exact Or.inl rfl

/-- C2: for every call to `load_data_with_duckdb`, whatever the input
(missing file, malformed filter shapes, or an engine exception), if the
returned result has a non-null error string then its dataframe is empty. -/
theorem C2_error_implies_empty_dataframe (inp : DuckInput)
    (h : (load_data_with_duckdb inp).error ≠ none) :
    (load_data_with_duckdb inp).data = [] :=
  match load_error_or_empty inp with
  | Or.inl he => absurd he h
  | Or.inr hd => hd

/-- Witness for C2 at a concrete input with a missing source file. -/
theorem C2_error_implies_empty_dataframe_witness :
    (load_data_with_duckdb
        ⟨"cur_games", "data/prep/games.csv", false, [],
          ⟨none, none, none, none, none⟩, none⟩).error ≠ none ∧
    (load_data_with_duckdb
        ⟨"cur_games", "data/prep/games.csv", false, [],
          ⟨none, none, none, none, none⟩, none⟩).data = [] :=
  ⟨by decide,
   C2_error_implies_empty_dataframe
     ⟨"cur_games", "data/prep/games.csv", false, [],
       ⟨none, none, none, none, none⟩, none⟩ (by decide)⟩

/-- C4: the UI swap of the two date inputs always yields an ordered pair,
swapping exactly when the entered start is after the entered end. -/
theorem C4_date_swap (s e : Int) :
    (orderDateRange s e).1 ≤ (orderDateRange s e).2 ∧
    (s > e → orderDateRange s e = (e, s)) ∧
    (s ≤ e → orderDateRange s e = (s, e)) := by
  unfold orderDateRange
  by_cases h : s > e
  · rw [if_pos h]
    exact ⟨le_of_lt h, fun _ => rfl, fun h2 => absurd h (not_lt.mpr h2)⟩
  · rw [if_neg h]
    exact ⟨not_lt.mp h, fun h2 => absurd h2 h, fun _ => rfl⟩

/-- Witness for C4 at a reversed concrete pair. -/
theorem C4_date_swap_witness :
    ((5 : Int) > 3) ∧ orderDateRange 5 3 = (3, 5) :=
  ⟨by decide, (C4_date_swap 5 3).2.1 (by decide)⟩

/-- C6 counterexample: with a date filter column present and a `date_range`
of the wrong arity — the empty tuple/list — `load_data_with_duckdb` does
NOT return an error result: the empty sequence is falsy in Python, so the
guard at line 596 skips the whole date block and a query is executed. -/
theorem C6_counterexample :
    (load_data_with_duckdb
        ⟨"cur_games", "data/prep/games.csv", true, [],
          ⟨some "date", some (PyDateRange.seq []), none, none, none⟩,
          none⟩).error = none ∧
    (load_data_with_duckdb
        ⟨"cur_games", "data/prep/games.csv", true, [],
          ⟨some "date", some (PyDateRange.seq []), none, none, none⟩,
          none⟩).queryText ≠ none := by
  constructor
  · rfl
  · intro h
    exact Option.noConfusion h

/-- A truthy but malformed `date_range` (non-empty sequence that is not a
pair of dates, or a non-sequence) makes the date block return an error. -/
theorem buildDate_error_of_malformed (f : Filters) (col : String)
    (hcol : f.date_filter_col = some col) (hne : col.isEmpty = false)
    (ht : truthyRange f.date_range = true)
    (hmal : ∀ s e, f.date_range ≠
      some (PyDateRange.seq [PyDateVal.date s, PyDateVal.date e])) :
    ∃ msg, buildDateConditions f = Except.error msg := by
  cases hdr : f.date_range with
  | none => rw [hdr] at ht; simp [truthyRange] at ht
  | some dr =>
    cases dr with
    | nonseq =>
        exact ⟨"Invalid date range format",
          by simp [buildDateConditions, hcol, hdr, hne]⟩
    | seq elems =>
        rcases elems with _ | ⟨a, _ | ⟨b, _ | ⟨c, rest⟩⟩⟩
        · rw [hdr] at ht; simp [truthyRange] at ht
        · exact ⟨"Invalid date range format",
            by simp [buildDateConditions, hcol, hdr, hne]⟩
        · cases a with
          | date s =>
              cases b with
              | date e => exact absurd hdr (hmal s e)
              | notDate =>
                  exact ⟨"Invalid date types",
                    by simp [buildDateConditions, hcol, hdr, hne]⟩
          | notDate =>
              cases b with
              | date e =>
                  exact ⟨"Invalid date types",
                    by simp [buildDateConditions, hcol, hdr, hne]⟩
              | notDate =>
                  exact ⟨"Invalid date types",
                    by simp [buildDateConditions, hcol, hdr, hne]⟩
        · exact ⟨"Invalid date range format",
            by simp [buildDateConditions, hcol, hdr, hne]⟩

/-- C6 (amended): for a call whose FilterSpec specifies a date filter
column and whose `date_range` is a truthy value that is not a tuple/list
of exactly two dates, the result has a populated error, an empty
dataframe, and an empty query text, so no SQL is executed.  (The original
claim also covered the falsy empty sequence, where the code instead
silently drops the date filter and runs the query.) -/
theorem C6_amended_malformed_range (inp : DuckInput) (col : String)
    (hcol : inp.filters.date_filter_col = some col)
    (hne : col.isEmpty = false)
    (ht : truthyRange inp.filters.date_range = true)
    (hmal : ∀ s e, inp.filters.date_range ≠
      some (PyDateRange.seq [PyDateVal.date s, PyDateVal.date e])) :
    ∃ msg, load_data_with_duckdb inp =
      { data := [], queryText := none, error := some msg,
        total_rows_available := none, row_count := some 0 } := by
  obtain ⟨msg, hmsg⟩ :=
    buildDate_error_of_malformed inp.filters col hcol hne ht hmal
  unfold load_data_with_duckdb
  cases hfe : inp.fileExists with
  | false => exact ⟨_, rfl⟩
  | true => exact ⟨msg, by rw [hmsg]; rfl⟩

/-- Witness for the amended C6 at a concrete two-element range of
non-dates. -/
theorem C6_amended_malformed_range_witness :
    ("date" : String).isEmpty = false ∧
    truthyRange
      (some (PyDateRange.seq [PyDateVal.notDate, PyDateVal.notDate])) = true ∧
    ∃ msg, load_data_with_duckdb
        ⟨"cur_games", "data/prep/games.csv", true, [],
          ⟨some "date",
            some (PyDateRange.seq [PyDateVal.notDate, PyDateVal.notDate]),
            none, none, none⟩, none⟩ =
      { data := [], queryText := none, error := some msg,
        total_rows_available := none, row_count := some 0 } :=
  ⟨by decide, by decide,
   C6_amended_malformed_range
     ⟨"cur_games", "data/prep/games.csv", true, [],
       ⟨some "date",
         some (PyDateRange.seq [PyDateVal.notDate, PyDateVal.notDate]),
         none, none, none⟩, none⟩
     "date" rfl (by decide) (by decide) (by intro s e h; simp at h)⟩

/-- C1: on an existing source file with well-formed filters and no engine
failure, `load_data_with_duckdb` counts the matching rows first and
reports that true count in `total_rows_available`; a `LIMIT` equal to the
per-asset `MAX_QUERY_ROWS` ceiling (the lower ceiling for the three known
large assets, the default for the rest) is appended exactly when the count
exceeds the ceiling, and the returned dataframe never has more rows than
the ceiling. -/
theorem C1_row_cap (inp : DuckInput) (dateConds : List SqlPred)
    (hfile : inp.fileExists = true)
    (hdate : buildDateConditions inp.filters = Except.ok dateConds)
    (hengine : inp.engineFailure = none) :
    (load_data_with_duckdb inp).data.length ≤ maxQueryRows inp.assetName ∧
    (load_data_with_duckdb inp).total_rows_available =
      some (countMatching inp.table
        (dateConds ++ buildClubConditions inp.filters)) ∧
    (countMatching inp.table (dateConds ++ buildClubConditions inp.filters) >
        maxQueryRows inp.assetName →
      (load_data_with_duckdb inp).queryText =
        some { conds := dateConds ++ buildClubConditions inp.filters,
               lim := some (maxQueryRows inp.assetName) }) ∧
    (countMatching inp.table (dateConds ++ buildClubConditions inp.filters) ≤
        maxQueryRows inp.assetName →
      (load_data_with_duckdb inp).queryText =
        some { conds := dateConds ++ buildClubConditions inp.filters,
               lim := none }) ∧
    (largeAssets.contains inp.assetName = true →
      maxQueryRows inp.assetName = 100000) ∧
    (largeAssets.contains inp.assetName = false →
      maxQueryRows inp.assetName = 200000) := by
  have hcapLarge : largeAssets.contains inp.assetName = true →
      maxQueryRows inp.assetName = 100000 := fun h => by
    unfold maxQueryRows; rw [if_pos h]
  have hcapSmall : largeAssets.contains inp.assetName = false →
      maxQueryRows inp.assetName = 200000 := fun h => by
    unfold maxQueryRows; rw [if_neg (by rw [h]; simp)]
  unfold load_data_with_duckdb
  rw [hfile, hdate, hengine]
  rw [if_neg (by decide : ¬((!true) = true))]
  dsimp only
  by_cases hcap :
      countMatching inp.table (dateConds ++ buildClubConditions inp.filters) >
        maxQueryRows inp.assetName
  · rw [if_pos hcap]
    refine ⟨?_, rfl, fun _ => rfl, fun hle => absurd hcap (not_lt.mpr hle),
      hcapLarge, hcapSmall⟩
    show ((inp.table.filter
        (matchesConds (dateConds ++ buildClubConditions inp.filters))).take
          (maxQueryRows inp.assetName)).length ≤ maxQueryRows inp.assetName
    rw [List.length_take]
    exact Nat.min_le_left _ _
  · rw [if_neg hcap]
    refine ⟨?_, rfl, fun hgt => absurd hgt hcap, fun _ => rfl,
      hcapLarge, hcapSmall⟩
    show (inp.table.filter
        (matchesConds (dateConds ++ buildClubConditions inp.filters))).length ≤
      maxQueryRows inp.assetName
    exact not_lt.mp hcap

/-- Witness for C1 at a concrete one-row games table with no filters. -/
theorem C1_row_cap_witness :
    (DuckInput.fileExists
        ⟨"cur_games", "data/prep/games.csv", true, [[("date", 5)]],
          ⟨none, none, none, none, none⟩, none⟩) = true ∧
    buildDateConditions ⟨none, none, none, none, none⟩ = Except.ok [] ∧
    (load_data_with_duckdb
        ⟨"cur_games", "data/prep/games.csv", true, [[("date", 5)]],
          ⟨none, none, none, none, none⟩, none⟩).data.length ≤
      maxQueryRows "cur_games" :=
  ⟨rfl, rfl,
   (C1_row_cap
     ⟨"cur_games", "data/prep/games.csv", true, [[("date", 5)]],
       ⟨none, none, none, none, none⟩, none⟩ [] rfl rfl rfl).1⟩

/-- Avoiding the truthiness guards, `buildClubConditions` never emits a
date-range predicate: every branch yields `[]`, one `IN` clause or one
`OR`-join of `IN` clauses. -/
theorem clubConditions_not_dateRange (f : Filters) :
    ∀ p ∈ buildClubConditions f, isDateRangePred p = false := by
  intro p hp
  rcases f with ⟨dcol, dr, cfgO, selO, nmapO⟩
  cases cfgO with
  | none => simp [buildClubConditions] at hp
  | some cfg =>
    cases selO with
    | none => simp [buildClubConditions] at hp
    | some sel =>
      cases nmapO with
      | none => simp [buildClubConditions] at hp
      | some nmap =>
        rcases cfg with ⟨cols, mtype⟩
        simp only [buildClubConditions] at hp
        by_cases h1 : (sel.isEmpty || nmap.isEmpty) = true
        · rw [if_pos h1] at hp
          exact absurd hp (List.not_mem_nil p)
        · rw [if_neg h1] at hp
          by_cases h2 : (resolveClubIds nmap sel).isEmpty = true
          · rw [if_pos h2] at hp
            exact absurd hp (List.not_mem_nil p)
          · rw [if_neg h2] at hp
            cases cols with
            | nil => simp at hp
            | cons a as =>
              cases mtype with
              | single =>
                  simp only [List.map_cons] at hp
                  rcases List.mem_singleton.mp hp with rfl
                  rfl
              | any =>
                  simp only [List.map_cons] at hp
                  rcases List.mem_singleton.mp hp with rfl
                  rfl

/-- Reduction of `buildClubConditions` once all three guards pass. -/
theorem buildClub_reduced (f : Filters) (cfg : ClubFilterConfig)
    (sel : List String) (nmap : List (String × Int))
    (hcfg : f.club_filter_config = some cfg)
    (hsel : f.selected_clubs = some sel)
    (hmap : f.club_name_map = some nmap)
    (hselne : sel.isEmpty = false)
    (hmapne : nmap.isEmpty = false)
    (hids : (resolveClubIds nmap sel).isEmpty = false) :
    buildClubConditions f =
      match cfg.cols, cfg.mtype with
      | [], _ => []
      | first :: _, MembershipType.single =>
          [SqlPred.inList first (resolveClubIds nmap sel)]
      | _ :: _, MembershipType.any =>
          [SqlPred.orIn cfg.cols (resolveClubIds nmap sel)] := by
  cases hc : cfg.cols with
  | nil =>
      simp [buildClubConditions, hcfg, hsel, hmap, hselne, hmapne, hids, hc]
  | cons a as =>
      cases hm : cfg.mtype with
      | single =>
          simp [buildClubConditions, hcfg, hsel, hmap, hselne, hmapne, hids,
            hc, hm]
      | any =>
          simp [buildClubConditions, hcfg, hsel, hmap, hselne, hmapne, hids,
            hc, hm]

/-- `"(c1 IN ids OR c2 IN ids OR ...)"` evaluates as the disjunction of
the per-column `IN` clauses. -/
theorem evalPred_orIn (r : Row) (cols : List String) (ids : List Int) :
    evalPred r (SqlPred.orIn cols ids) =
      cols.any fun c => evalPred r (SqlPred.inList c ids) := rfl

/-- C3: under a club filter in `"any"` mode over the configured columns
with a non-empty resolved id set, the club predicate added to the WHERE
clause is the disjunction of one `col IN (...)` clause per column, so a
row is selected iff some column's value is in the id set (the selected row
set is the union of the per-column matches); in `"single"` mode it is
exactly the one `IN` clause over the designated column. -/
theorem C3_club_membership (f : Filters) (cfg : ClubFilterConfig)
    (sel : List String) (nmap : List (String × Int))
    (hcfg : f.club_filter_config = some cfg)
    (hsel : f.selected_clubs = some sel)
    (hmap : f.club_name_map = some nmap)
    (hselne : sel.isEmpty = false)
    (hmapne : nmap.isEmpty = false)
    (hids : (resolveClubIds nmap sel).isEmpty = false) :
    (cfg.mtype = MembershipType.any → cfg.cols ≠ [] →
      buildClubConditions f =
        [SqlPred.orIn cfg.cols (resolveClubIds nmap sel)] ∧
      ∀ (table : List Row) (r : Row),
        r ∈ table.filter
            (fun row =>
              evalPred row (SqlPred.orIn cfg.cols (resolveClubIds nmap sel))) ↔
          r ∈ table ∧
            ∃ c ∈ cfg.cols,
              evalPred r (SqlPred.inList c (resolveClubIds nmap sel)) = true) ∧
    (∀ c, cfg.mtype = MembershipType.single → cfg.cols = [c] →
      buildClubConditions f =
        [SqlPred.inList c (resolveClubIds nmap sel)]) := by
  have hb := buildClub_reduced f cfg sel nmap hcfg hsel hmap hselne hmapne hids
  constructor
  · intro hany hcols
    obtain ⟨a, as, hc⟩ : ∃ a as, cfg.cols = a :: as := by
      cases hcx : cfg.cols with
      | nil => exact absurd hcx hcols
      | cons a as => exact ⟨a, as, rfl⟩
    constructor
    · rw [hb, hc, hany]
    · intro table r
      simp only [List.mem_filter, evalPred_orIn, List.any_eq_true]
  · intro c hsingle hc
    rw [hb, hc, hsingle]

/-- Witness for C3 at the transfers-style two-column `"any"` filter. -/
theorem C3_club_membership_witness :
    (["Arsenal FC"] : List String).isEmpty = false ∧
    (resolveClubIds [("Arsenal FC", 11)] ["Arsenal FC"]).isEmpty = false ∧
    buildClubConditions
      ⟨none, none,
        some ⟨["home_club_id", "away_club_id"], MembershipType.any⟩,
        some ["Arsenal FC"], some [("Arsenal FC", 11)]⟩ =
      [SqlPred.orIn ["home_club_id", "away_club_id"]
        (resolveClubIds [("Arsenal FC", 11)] ["Arsenal FC"])] :=
  ⟨rfl, by decide,
   ((C3_club_membership
       ⟨none, none,
         some ⟨["home_club_id", "away_club_id"], MembershipType.any⟩,
         some ["Arsenal FC"], some [("Arsenal FC", 11)]⟩
       ⟨["home_club_id", "away_club_id"], MembershipType.any⟩
       ["Arsenal FC"] [("Arsenal FC", 11)]
       rfl rfl rfl rfl rfl (by decide)).1 rfl (by simp)).1⟩

/-- C5: with a date filter column and a two-date range `[s, e]` with
`s ≤ e`, the translator emits the single inclusive-both-ends predicate
(equivalent to SQL `BETWEEN`), a row satisfies it iff its date value lies
in `[s, e]`, and the WHERE conditions contain at most one date-range
predicate. -/
theorem C5_date_between (f : Filters) (col : String) (s e : Int)
    (hcol : f.date_filter_col = some col)
    (hne : col.isEmpty = false)
    (hdr : f.date_range =
      some (PyDateRange.seq [PyDateVal.date s, PyDateVal.date e]))
    (_hse : s ≤ e) :
    buildDateConditions f = Except.ok [SqlPred.dateBetween col s e] ∧
    (∀ r : Row, evalPred r (SqlPred.dateBetween col s e) = true ↔
      ∃ v, rowVal r col = some v ∧ s ≤ v ∧ v ≤ e) ∧
    ([SqlPred.dateBetween col s e] ++ buildClubConditions f).countP
      isDateRangePred ≤ 1 := by
  refine ⟨?_, ?_, ?_⟩
  · simp [buildDateConditions, hcol, hdr, hne]
  · intro r
    unfold evalPred
    cases hv : rowVal r col with
    | none => simp [hv]
    | some v => simp [hv]
  · have h0 : (buildClubConditions f).countP isDateRangePred = 0 :=
      List.countP_eq_zero.mpr fun a ha => by
        simp [clubConditions_not_dateRange f a ha]
    rw [List.countP_append, h0]
    simp [List.countP_cons, isDateRangePred]

/-- Witness for C5 at the concrete range `[0, 5]` on column `date`. -/
theorem C5_date_between_witness :
    ("date" : String).isEmpty = false ∧
    ((0 : Int) ≤ 5) ∧
    buildDateConditions
      ⟨some "date",
        some (PyDateRange.seq [PyDateVal.date 0, PyDateVal.date 5]),
        none, none, none⟩ =
      Except.ok [SqlPred.dateBetween "date" 0 5] :=
  ⟨by decide, by decide,
   (C5_date_between
     ⟨some "date",
       some (PyDateRange.seq [PyDateVal.date 0, PyDateVal.date 5]),
       none, none, none⟩
     "date" 0 5 rfl (by decide) rfl (by decide)).1⟩

/-- C7: each selected club name is translated through the name→id mapping
and names with no entry contribute nothing (no id, no predicate, no
error); likewise the league-based resolution drops from its returned name
list every club id with no entry in the id→name mapping. -/
theorem C7_unresolved_names_dropped (nmap : List (String × Int))
    (name : String) (rest : List String)
    (idToName : List (Int × String)) (cid : Int) (ids : List Int) :
    (pyDictGet nmap name = none →
      resolveClubIds nmap (name :: rest) = resolveClubIds nmap rest) ∧
    (∀ i, pyDictGet nmap name = some i →
      resolveClubIds nmap (name :: rest) = i :: resolveClubIds nmap rest) ∧
    (pyDictGet idToName cid = none →
      clubNamesFromIds (cid :: ids) idToName = clubNamesFromIds ids idToName) ∧
    (∀ nm, pyDictGet idToName cid = some nm →
      (cid :: ids).filterMap (fun j => pyDictGet idToName j) =
        nm :: ids.filterMap fun j => pyDictGet idToName j) := by
  refine ⟨?_, ?_, ?_, ?_⟩
  · intro h
    simp [resolveClubIds, List.filterMap_cons, h]
  · intro i h
    simp [resolveClubIds, List.filterMap_cons, h]
  · intro h
    simp [clubNamesFromIds, List.filterMap_cons, h]
  · intro nm h
    simp [List.filterMap_cons, h]

/-- Witness for C7: `Chelsea FC` is absent from the mapping and is
dropped; `Arsenal FC` resolves. -/
theorem C7_unresolved_names_dropped_witness :
    pyDictGet [("Arsenal FC", (11 : Int))] "Chelsea FC" = none ∧
    resolveClubIds [("Arsenal FC", 11)] ["Chelsea FC", "Arsenal FC"] =
      resolveClubIds [("Arsenal FC", 11)] ["Arsenal FC"] :=
  ⟨by decide,
   (C7_unresolved_names_dropped [("Arsenal FC", 11)] "Chelsea FC"
     ["Arsenal FC"] [] 0 []).1 (by decide)⟩

/-- C8: an Excel buffer strictly larger than the configured maximum is
discarded — the session keeps its reset (unset) state, an error is
reported and the download button is not rendered; a buffer within the
limit is stored together with the `transfermarkt_<asset>_<timestamp>.xlsx`
filename and no error. -/
theorem C8_excel_size_gate (assetName timestamp : String)
    (excelBytes : List Nat) :
    (excelBytes.length > MAX_FILE_SIZE_MB * 1024 * 1024 →
      (storeExcelForDownload assetName timestamp excelBytes).1 =
        resetExportSession ∧
      (storeExcelForDownload assetName timestamp excelBytes).2 ≠ none ∧
      downloadOffered
        (storeExcelForDownload assetName timestamp excelBytes).1 = false) ∧
    (excelBytes.length ≤ MAX_FILE_SIZE_MB * 1024 * 1024 →
      (storeExcelForDownload assetName timestamp excelBytes).1.data_prepared_for_download = true ∧
      (storeExcelForDownload assetName timestamp excelBytes).1.excel_bytes_for_download = some excelBytes ∧
      (storeExcelForDownload assetName timestamp excelBytes).1.excel_filename_for_download =
        "transfermarkt_" ++ assetName ++ "_" ++ timestamp ++ ".xlsx" ∧
      (storeExcelForDownload assetName timestamp excelBytes).2 = none) := by
  constructor
  · intro h
    have hex : excelFileSizeExceeds excelBytes = true := by
      unfold excelFileSizeExceeds
      exact decide_eq_true h
    unfold storeExcelForDownload
    rw [if_pos hex]
    refine ⟨rfl, fun hc => Option.noConfusion hc, rfl⟩
  · intro h
    have hex : excelFileSizeExceeds excelBytes = false := by
      unfold excelFileSizeExceeds
      exact decide_eq_false (not_lt.mpr h)
    unfold storeExcelForDownload
    rw [hex]
    rw [if_neg (by decide)]
    exact ⟨rfl, rfl, rfl, rfl⟩

/-- Witness for C8: a buffer one byte over the 100 MB limit is rejected
(the length hypothesis is discharged via `List.replicate`). -/
theorem C8_excel_size_gate_witness :
    (List.replicate (100 * 1024 * 1024 + 1) (0 : Nat)).length >
      MAX_FILE_SIZE_MB * 1024 * 1024 ∧
    (storeExcelForDownload "cur_games" "20260101_000000"
        (List.replicate (100 * 1024 * 1024 + 1) (0 : Nat))).1 =
      resetExportSession :=
  ⟨by rw [List.length_replicate]; simp [MAX_FILE_SIZE_MB],
   ((C8_excel_size_gate "cur_games" "20260101_000000"
       (List.replicate (100 * 1024 * 1024 + 1) (0 : Nat))).1
     (by rw [List.length_replicate]; simp [MAX_FILE_SIZE_MB])).1⟩

/-- `load_data_with_duckdb` depends on its input only through the fields
and the two condition builders. -/
theorem load_eq_of_same_conditions (a b : DuckInput)
    (h1 : a.assetName = b.assetName) (h2 : a.filePath = b.filePath)
    (h3 : a.fileExists = b.fileExists) (h4 : a.table = b.table)
    (h5 : a.engineFailure = b.engineFailure)
    (h6 : buildDateConditions a.filters = buildDateConditions b.filters)
    (h7 : buildClubConditions a.filters = buildClubConditions b.filters) :
    load_data_with_duckdb a = load_data_with_duckdb b := by
  unfold load_data_with_duckdb
  rw [h1, h2, h3, h4, h5, h6, h7]

/-- C9: when the club filter is present but the selected list is empty, or
no selected name resolves through the mapping, no club predicate is built
and the call behaves exactly as if no club filter had been given. -/
theorem C9_empty_club_filter (inp : DuckInput)
    (hcfg : inp.filters.club_filter_config.isSome = true)
    (h : inp.filters.selected_clubs = some [] ∨
      ∃ sel nmap, inp.filters.selected_clubs = some sel ∧
        inp.filters.club_name_map = some nmap ∧
        resolveClubIds nmap sel = []) :
    buildClubConditions inp.filters = [] ∧
    load_data_with_duckdb inp =
      load_data_with_duckdb
        { inp with filters :=
            { inp.filters with club_filter_config := none,
                               selected_clubs := none,
                               club_name_map := none } } := by
  obtain ⟨cfg, hc⟩ := Option.isSome_iff_exists.mp hcfg
  have hclub : buildClubConditions inp.filters = [] := by
    rcases h with hsel | ⟨sel, nmap, hsel, hnm, hres⟩
    · cases hm : inp.filters.club_name_map with
      | none => simp [buildClubConditions, hc, hsel, hm]
      | some nmap => simp [buildClubConditions, hc, hsel, hm]
    · by_cases he : (sel.isEmpty || nmap.isEmpty) = true
      · simp [buildClubConditions, hc, hsel, hnm, he]
      · simp [buildClubConditions, hc, hsel, hnm, he, hres]
  refine ⟨hclub, load_eq_of_same_conditions _ _ rfl rfl rfl rfl rfl rfl ?_⟩
  rw [hclub]
  rfl

/-- Witness for C9 with an empty selected-clubs list. -/
theorem C9_empty_club_filter_witness :
    (Filters.club_filter_config
        ⟨none, none, some ⟨["club_id"], MembershipType.single⟩,
          some [], some [("Arsenal FC", 11)]⟩).isSome = true ∧
    buildClubConditions
      ⟨none, none, some ⟨["club_id"], MembershipType.single⟩,
        some [], some [("Arsenal FC", 11)]⟩ = [] :=
  ⟨rfl,
   (C9_empty_club_filter
     ⟨"cur_club_games", "data/prep/club_games.csv", true, [],
       ⟨none, none, some ⟨["club_id"], MembershipType.single⟩,
         some [], some [("Arsenal FC", 11)]⟩, none⟩
     rfl (Or.inl rfl)).1⟩

/-- The loop of `truncate_output` emits at most one entry per budgeted
line plus possibly the final marker. -/
theorem truncateLoop_length (total maxLineLen : Nat) :
    ∀ (lines : List String) (budget : Nat),
      (truncateLoop total maxLineLen lines budget).length ≤ budget + 1 := by
  intro lines
  induction lines with
  | nil => intro budget; simp [truncateLoop]
  | cons line rest ih =>
    intro budget
    cases budget with
    | zero => simp [truncateLoop]
    | succ b =>
      simp only [truncateLoop, List.length_cons]
      exact Nat.succ_le_succ (ih b)

/-- Within the budget, the loop maps each input line through
`truncateLine` positionally. -/
theorem truncateLoop_get (total maxLineLen : Nat) :
    ∀ (lines : List String) (budget i : Nat) (l : String),
      i < budget → lines.get? i = some l →
      (truncateLoop total maxLineLen lines budget).get? i =
        some (truncateLine maxLineLen l) := by
  intro lines
  induction lines with
  | nil => intro budget i l _ hg; simp at hg
  | cons line rest ih =>
    intro budget i l hib hg
    cases budget with
    | zero => exact absurd hib (Nat.not_lt_zero i)
    | succ b =>
      cases i with
      | zero =>
        rw [List.get?_cons_zero] at hg
        injection hg with hg
        subst hg
        simp [truncateLoop]
      | succ j =>
        rw [List.get?_cons_succ] at hg
        simp only [truncateLoop, List.get?_cons_succ]
        exact ih b j l (Nat.lt_of_succ_lt_succ hib) hg

/-- On a non-empty line list the loop emits at least one entry. -/
theorem truncateLoop_ne_nil (total maxLineLen : Nat) (lines : List String)
    (budget : Nat) (h : lines ≠ []) :
    truncateLoop total maxLineLen lines budget ≠ [] := by
  cases lines with
  | nil => exact absurd rfl h
  | cons a rest =>
    cases budget with
    | zero => simp [truncateLoop]
    | succ b => simp [truncateLoop]

/-- `getLast?` skips a head when the tail is non-empty. -/
theorem getLast?_cons_of_ne_nil {α : Type} (a : α) (l : List α)
    (h : l ≠ []) : (a :: l).getLast? = l.getLast? := by
  cases l with
  | nil => exact absurd rfl h
  | cons b m => exact List.getLast?_cons_cons

/-- When the budget runs out before the lines do, the loop's final entry
is the too-many-lines marker. -/
theorem truncateLoop_getLast (total maxLineLen : Nat) :
    ∀ (lines : List String) (budget : Nat), budget < lines.length →
      (truncateLoop total maxLineLen lines budget).getLast? =
        some (tooManyLinesMarker total) := by
  intro lines
  induction lines with
  | nil => intro budget h; simp at h
  | cons line rest ih =>
    intro budget h
    cases budget with
    | zero => simp [truncateLoop]
    | succ b =>
      have hb : b < rest.length := Nat.lt_of_succ_lt_succ h
      have hrest : rest ≠ [] := by
        cases rest with
        | nil => simp at hb
        | cons x xs => simp
      simp only [truncateLoop]
      rw [getLast?_cons_of_ne_nil _ _
        (truncateLoop_ne_nil total maxLineLen rest b hrest)]
      exact ih b hb

/-- C10: `truncate_output` returns the empty string on empty input;
otherwise it joins the processed lines, of which there are at most
`maxLines + 1`: each of the first `maxLines` input lines is kept unchanged
when within `maxLineLen` and otherwise cut to its first `maxLineLen`
characters plus the too-long marker, and when the input has more than
`maxLines` lines the final entry is the marker reporting the total line
count. -/
theorem C10_truncate_output (output : String) (maxLines maxLineLen : Nat)
    (_h : 1 ≤ maxLines) :
    (output.isEmpty = true → truncate_output output maxLines maxLineLen = "") ∧
    (output.isEmpty = false →
      truncate_output output maxLines maxLineLen =
        String.intercalate "\\n"
          (truncateLoop (pySplitlines output).length maxLineLen
            (pySplitlines output) maxLines) ∧
      (truncateLoop (pySplitlines output).length maxLineLen
          (pySplitlines output) maxLines).length ≤ maxLines + 1 ∧
      (∀ i l, i < maxLines → (pySplitlines output).get? i = some l →
        (truncateLoop (pySplitlines output).length maxLineLen
            (pySplitlines output) maxLines).get? i =
          some (if l.length ≤ maxLineLen then l
            else String.mk (l.data.take maxLineLen) ++
              lineTooLongMarker l.length)) ∧
      (maxLines < (pySplitlines output).length →
        (truncateLoop (pySplitlines output).length maxLineLen
            (pySplitlines output) maxLines).getLast? =
          some (tooManyLinesMarker (pySplitlines output).length))) := by
  constructor
  · intro he
    unfold truncate_output
    rw [if_pos he]
  · intro he
    refine ⟨?_, truncateLoop_length _ _ _ _, ?_,
      truncateLoop_getLast _ _ _ _⟩
    · unfold truncate_output
      rw [if_neg (by simp [he])]
    · intro i l hi hg
      rw [truncateLoop_get (pySplitlines output).length maxLineLen
        (pySplitlines output) maxLines i l hi hg]
      congr 1
      unfold truncateLine
      by_cases hl : l.length > maxLineLen
      · rw [if_pos hl, if_neg (not_le.mpr hl)]
      · rw [if_neg hl, if_pos (not_lt.mp hl)]

/-- Witness for C10 on a three-line input with budget two. -/
theorem C10_truncate_output_witness :
    1 ≤ 2 ∧ ("ab\ncdef\nx" : String).isEmpty = false ∧
    (truncateLoop (pySplitlines "ab\ncdef\nx").length 3
        (pySplitlines "ab\ncdef\nx") 2).length ≤ 2 + 1 :=
  ⟨by decide, by decide,
   ((C10_truncate_output "ab\ncdef\nx" 2 3 (by decide)).2 (by decide)).2.1⟩
